import Mathlib

/-!
Shallow embedding of the bounded-concurrency network probing engine of
the Python-Security-Scripts repository, covering:

* `week2/day10/port_scan.py`   — `parse_ports`, `scan_port`, `run_scan`
* `week2/day11/banner_grab.py` — `parse_ports`, `try_banner`, `read_targets_file`, `run_bulk`
* `week2/day9/ping_sweeper.py` — `scan_ip`, `sweep`

Network and OS effects are modelled by explicit environment records: every
socket primitive's outcome (connect success, refusal errno, raised exception
text, bytes received) is a field of an environment value, and the Python
functions become pure Lean functions of that environment.  Received bytes are
modelled by their best-effort decoded text (the sources decode with
`errors="ignore"`, which never raises), so "zero bytes received" corresponds
to the empty string.  The nondeterministic completion order produced by
`concurrent.futures.as_completed` is modelled by an explicit `order` list,
constrained in theorems to be a permutation of the submitted targets.
Timeout, delay and worker-count arguments configure the socket/pool only;
their effects are delivered through the environment, so they are carried as
inert parameters.
-/

set_option linter.unusedVariables false

namespace PySec

/-- Python `str.strip()`: drop leading and trailing whitespace. -/
def pyStrip (s : String) : String :=
  String.mk (((s.toList.dropWhile Char.isWhitespace).reverse.dropWhile
    Char.isWhitespace).reverse)

/-- Worker for `pySplit`: `cur` is the reversed current chunk. -/
def pySplitGo (sep : Char) : List Char → List Char → List String
  | [], cur => [String.mk cur.reverse]
  | c :: rest, cur =>
    if c = sep then String.mk cur.reverse :: pySplitGo sep rest []
    else pySplitGo sep rest (c :: cur)

/-- Python `s.split(sep)` for a one-character separator:
`"".split(",") = [""]`, `"a,".split(",") = ["a", ""]`. -/
def pySplit (sep : Char) (s : String) : List String :=
  pySplitGo sep s.toList []

/-- Worker for `pySplitFirst`. -/
def pySplitFirstGo (sep : Char) : List Char → List Char × List Char
  | [] => ([], [])
  | c :: rest =>
    if c = sep then ([], rest)
    else
      let r := pySplitFirstGo sep rest
      (c :: r.1, r.2)

/-- Python `s.split(sep, 1)` unpacked into a pair (the sources only use it
under an `if sep in s` guard, so the separator is present). -/
def pySplitFirst (sep : Char) (s : String) : String × String :=
  let r := pySplitFirstGo sep s.toList
  (String.mk r.1, String.mk r.2)

/-- Value of a nonempty all-digit character list, else `none`. -/
def decDigitsVal (cs : List Char) : Option Nat :=
  if cs = [] then none
  else if cs.all Char.isDigit then
    some (cs.foldl (fun acc c => 10 * acc + (c.toNat - 48)) 0)
  else none

/-- CPython `int(s)` on decimal literals: strips surrounding whitespace,
accepts an optional sign followed by digits, raises `ValueError` (here:
`none`) otherwise.  (Underscore digit grouping is not modelled; no input in
scope uses it.) -/
def pyInt (s : String) : Option Int :=
  match (pyStrip s).toList with
  | '-' :: rest => (decDigitsVal rest).map (fun n => -(n : Int))
  | '+' :: rest => (decDigitsVal rest).map (fun n => (n : Int))
  | cs => (decDigitsVal cs).map (fun n => (n : Int))

/-- The exception a malformed integer raises out of enumeration
(Python `ValueError`; the spec's `ConfigError`). -/
inductive PyErr where
  | valueError : PyErr
deriving DecidableEq, Repr

/-- Python `range(a, b + 1)` over integers: `a, a+1, …, b` (empty if `b < a`). -/
def intRange (a b : Int) : List Int :=
  (List.range (b + 1 - a).toNat).map (fun i => a + (i : Int))

/-- The token loop shared by both `parse_ports` implementations
(`port_scan.py` lines 29–36, `banner_grab.py` lines 100–107): for each
comma-separated token, strip it; if it contains `-`, split at the first `-`
and add the inclusive range, else add the single integer; a malformed
integer raises `ValueError` out of the loop. -/
def collectPorts : List String → List Int → Except PyErr (List Int)
  | [], acc => .ok acc
  | part :: rest, acc =>
    let p := pyStrip part
    if p.toList.contains '-' then
      match pyInt (pySplitFirst '-' p).1, pyInt (pySplitFirst '-' p).2 with
      | some a, some b => collectPorts rest (acc ++ intRange a b)
      | _, _ => .error .valueError
    else
      match pyInt p with
      | some v => collectPorts rest (acc ++ [v])
      | none => .error .valueError

/-- `sorted(p for p in ports if 1 <= p <= 65535)` applied to the collected
set: the accumulated values are deduplicated (the Python accumulator is a
set) and the in-range ones returned sorted ascending. -/
def finishPorts (acc : List Int) : List Int :=
  ((acc.filter (fun p => decide (1 ≤ p ∧ p ≤ 65535))).dedup).mergeSort
    (fun a b => decide (a ≤ b))

/-- `list(range(1, 101))`: the default 1..100 of `port_scan.parse_ports`. -/
def defaultPorts : List Int :=
  (List.range' 1 100).map (fun n => (n : Int))

/-- `port_scan.parse_ports` (lines 20–37).  `none` models a `None` argument;
Python's `if not ports_arg` also treats the empty string as absent. -/
def parse_ports (ports_arg : Option String) : Except PyErr (List Int) :=
  match ports_arg with
  | none => .ok defaultPorts
  | some s =>
    if s = "" then .ok defaultPorts
    else (collectPorts (pySplit ',' s) []).map finishPorts

/-- `banner_grab.parse_ports` (lines 97–108): identical token loop, but an
empty/absent specification yields the empty list, not 1..100. -/
def bg_parse_ports (ports_arg : Option String) : Except PyErr (List Int) :=
  match ports_arg with
  | none => .ok []
  | some s =>
    if s = "" then .ok []
    else (collectPorts (pySplit ',' s) []).map finishPorts

unseal List.merge List.mergeSort in
example : parse_ports (some "22,80,443") = .ok [22, 80, 443] := rfl
unseal List.merge List.mergeSort in
example : parse_ports (some "3-5,4") = .ok [3, 4, 5] := rfl
unseal List.merge List.mergeSort in
example : parse_ports (some "0,70000,80") = .ok [80] := rfl
example : parse_ports none = .ok defaultPorts := rfl
example : parse_ports (some "22,x") = .error .valueError := rfl
example : bg_parse_ports (some "") = .ok [] := rfl

/-- `banner_grab.read_targets_file` (lines 110–123) applied to the file's
lines: strip each line, skip blank lines and `#` comments, split a `:` line
once into host and port (`int(port.strip())` may raise `ValueError`), and
give a bare host the default port 80. -/
def read_targets_file : List String → Except PyErr (List (String × Int))
  | [] => .ok []
  | line :: rest =>
    let l := pyStrip line
    if l = "" then read_targets_file rest
    else if l.toList.head? = some '#' then read_targets_file rest
    else if l.toList.contains ':' then
      match pyInt (pyStrip (pySplitFirst ':' l).2) with
      | some p =>
        (read_targets_file rest).map
          (fun ts => (pyStrip (pySplitFirst ':' l).1, p) :: ts)
      | none => .error .valueError
    else (read_targets_file rest).map (fun ts => (l, (80 : Int)) :: ts)

/-- Outcome of `socket.connect_ex`: either it returns an errno (`0` means
connected) or it raises an exception carrying `str(e)`. -/
inductive ConnectExRes where
  | ret : Int → ConnectExRes
  | exn : String → ConnectExRes
deriving DecidableEq, Repr

/-- Transport environment for one `scan_port` call.  `recvB` is the banner
`recv(1024)`: decoded received text on success (empty string for zero
bytes), or the text of the raised exception. -/
structure SpEnv where
  connectEx : ConnectExRes
  recvB : Except String String
deriving Repr

/-- The result dict of `port_scan.scan_port`:
`{"port": …, "open": …, "banner": …, "error": …}` (`open` is a Lean
keyword, rendered `isOpen`). -/
structure SpOut where
  port : Int
  isOpen : Bool
  banner : Option String
  error : Option String
deriving DecidableEq, Repr

/-- `port_scan.scan_port` (lines 39–67).  `timeoutMs` only configures the
socket deadline; its expiry is delivered through `env`.  A refused or
filtered connection makes `connect_ex` return a nonzero errno: the result
stays `open=False` with `error=None`.  Only a raised exception (outer
`except Exception`) sets `error`.  A banner-read failure is recorded in the
`banner` field, not in `error`. -/
def scan_port (env : SpEnv) (host : String) (port : Int) (timeoutMs : Nat)
    (do_banner : Bool) : SpOut :=
  match env.connectEx with
  | .exn e => { port := port, isOpen := false, banner := none, error := some e }
  | .ret res =>
    if res = 0 then
      if do_banner then
        match env.recvB with
        | .ok data =>
          if data = "" then
            { port := port, isOpen := true, banner := none, error := none }
          else
            { port := port, isOpen := true, banner := some (pyStrip data),
              error := none }
        | .error be =>
          { port := port, isOpen := true,
            banner := some ("<banner error: " ++ be), error := none }
      else { port := port, isOpen := true, banner := none, error := none }
    else { port := port, isOpen := false, banner := none, error := none }

/-- Outcome of `banner_grab`'s `s.connect`: success, `socket.timeout`, or
another exception carrying `str(e)`. -/
inductive ConnRes where
  | ok : ConnRes
  | timeout : ConnRes
  | exn : String → ConnRes
deriving DecidableEq, Repr

/-- Outcome of `banner_grab`'s `s.recv(4096)`: decoded received text (the
empty string models `b""`), `socket.timeout`, or another exception. -/
inductive RecvRes where
  | ok : String → RecvRes
  | timeout : RecvRes
  | exn : String → RecvRes
deriving DecidableEq, Repr

/-- Transport environment for one `try_banner` call.  `wrapErr` is the TLS
`wrap_socket` outcome (`some e` = any raised exception, caught locally);
`sendRaises` records whether `sendall` raised (the source ignores it);
`elapsedMs` is the measured wall-clock time. -/
structure BgEnv where
  connect : ConnRes
  wrapErr : Option String
  sendRaises : Bool
  recv : RecvRes
  elapsedMs : Nat
deriving DecidableEq, Repr

/-- The result dict of `banner_grab.try_banner` (and of `run_bulk`'s
synthesized failure record, which carries no `probing` key — hence
`Option`). -/
structure BgOut where
  host : String
  port : Int
  success : Bool
  banner : Option String
  error : Option String
  elapsed_ms : Option Nat
  probing : Option String
deriving DecidableEq, Repr

/-- `HTTP_PORTS` of `banner_grab.py` (line 24). -/
def HTTP_PORTS : List Int := [80, 8080, 8000, 443, 8443]

/-- `banner_grab.try_banner` (lines 26–95).  Mirrors the source's handler
structure: TLS wrap failure is caught locally and noted in `error` while the
probe continues on the plain socket; `sendall` failures are swallowed; the
`recv` handlers overwrite `error`; the outer handlers classify `connect`
failures as `connect_timeout` / `connect_error: …`.  A successful nonempty
read sets `success=True` without clearing `error`. -/
def try_banner (env : BgEnv) (host : String) (port : Int) (timeoutMs : Nat)
    (http_probe : Bool) (use_ssl : Bool) : BgOut :=
  let probing := if http_probe = true ∧ port ∈ HTTP_PORTS then "http" else "tcp"
  let base : BgOut :=
    { host := host, port := port, success := false, banner := none,
      error := none, elapsed_ms := none, probing := some probing }
  let afterBody :=
    match env.connect with
    | .timeout => { base with error := some "connect_timeout" }
    | .exn e => { base with error := some ("connect_error: " ++ e) }
    | .ok =>
      let o1 :=
        if use_ssl = true ∨ port = 443 ∨ port = 8443 then
          match env.wrapErr with
          | some e => { base with error := some ("ssl_wrap_error: " ++ e) }
          | none => base
        else base
      match env.recv with
      | .ok data =>
        if data = "" then { o1 with banner := none }
        else { o1 with banner := some (pyStrip data), success := true }
      | .timeout => { o1 with error := some "recv_timeout" }
      | .exn e => { o1 with error := some ("recv_error: " ++ e) }
  { afterBody with elapsed_ms := some env.elapsedMs }

/-- The result dict of `ping_sweeper.scan_ip` (and of `sweep`'s synthesized
failure record, which carries no `method`/`port` key — hence `Option`). -/
structure PingOut where
  ip : String
  alive : Bool
  method : Option String
  port : Option Int
  error : Option String
deriving DecidableEq, Repr

/-- `ping_sweeper.scan_ip` (lines 58–74).  `icmpOk` is the result of
`ping_icmp` (which returns `False` on any exception), `tcpOk` of
`tcp_probe` (likewise); the mode selects which one is consulted.  The
courtesy `delayMs` sleep has no effect on the result.  No branch ever
records an error. -/
def scan_ip (icmpOk : Bool) (tcpOk : Bool) (ip : String) (mode : String)
    (tcp_port : Int) (timeoutMs : Nat) (delayMs : Nat) : PingOut :=
  if mode = "icmp" then
    { ip := ip, alive := icmpOk, method := some mode, port := none,
      error := none }
  else
    { ip := ip, alive := tcpOk, method := some mode, port := some tcp_port,
      error := none }

/-! ### Scheduler / Aggregator

Each `run` function submits one future per enumerated target
(`futures = {ex.submit(...): t for t in targets}` — futures are distinct
dict keys even for equal targets) and drains `as_completed(futures)`.  The
nondeterministic completion sequence is the explicit `order` argument;
theorems constrain it to a permutation of the submitted targets.  The
per-target transport environment is a function of the target, and `fault t =
some e` models `fut.result()` raising a scheduling-level exception `e`, for
which the source synthesizes a failure record in place of the probe's. -/

/-- The summary dict built by `port_scan.run_scan` (timestamps and the
echoed configuration strings omitted as inert). -/
structure ScanSummary where
  host : String
  ports_scanned_count : Nat
  results : List SpOut
deriving Repr

/-- What `run_scan` appends for the future of port `p`: the probe result,
or the synthesized record when `fut.result()` raised (line 78). -/
def spResultFor (env : Int → SpEnv) (fault : Int → Option String)
    (host : String) (timeoutMs : Nat) (do_banner : Bool) (p : Int) : SpOut :=
  match fault p with
  | some e => { port := p, isOpen := false, banner := none, error := some e }
  | none => scan_port (env p) host p timeoutMs do_banner

/-- `port_scan.run_scan` (lines 69–90): collect in completion order, then
`sorted(results, key=lambda x: x["port"])`. -/
def run_scan (env : Int → SpEnv) (fault : Int → Option String) (host : String)
    (ports : List Int) (timeoutMs : Nat) (workers : Nat) (do_banner : Bool)
    (order : List Int) : ScanSummary :=
  { host := host, ports_scanned_count := ports.length,
    results := (order.map (spResultFor env fault host timeoutMs do_banner)).mergeSort
      (fun a b => decide (a.port ≤ b.port)) }

/-- What `run_bulk` appends for the future of target `t`: the probe result,
or the synthesized record when `fut.result()` raised (line 142). -/
def bgResultFor (env : String → Int → BgEnv)
    (fault : String → Int → Option String) (timeoutMs : Nat)
    (http_probe : Bool) (ssl_force : Bool) (t : String × Int) : BgOut :=
  match fault t.1 t.2 with
  | some e =>
    { host := t.1, port := t.2, success := false, banner := none,
      error := some ("exception:" ++ e), elapsed_ms := none, probing := none }
  | none => try_banner (env t.1 t.2) t.1 t.2 timeoutMs http_probe ssl_force

/-- `banner_grab.run_bulk` (lines 133–144): returns the results in
completion order; no sort is applied. -/
def run_bulk (env : String → Int → BgEnv)
    (fault : String → Int → Option String) (timeoutMs : Nat) (workers : Nat)
    (http_probe : Bool) (ssl_force : Bool)
    (order : List (String × Int)) : List BgOut :=
  order.map (bgResultFor env fault timeoutMs http_probe ssl_force)

/-- `ips = [f"{subnet_prefix}.{i}" for i in range(1, 255)]`
(`ping_sweeper.sweep` line 81). -/
def sweepIps (pfx : String) : List String :=
  (List.range' 1 254).map (fun i => pfx ++ "." ++ toString i)

/-- What `sweep` appends for the future of address `ip`: the probe result,
or the synthesized record when `fut.result()` raised (line 90) — which has
no `method`/`port` keys. -/
def sweepResultFor (icmpEnv : String → Bool) (tcpEnv : String → Bool)
    (fault : String → Option String) (mode : String) (tcp_port : Int)
    (timeoutMs : Nat) (delayMs : Nat) (ip : String) : PingOut :=
  match fault ip with
  | some e =>
    { ip := ip, alive := false, method := none, port := none, error := some e }
  | none => scan_ip (icmpEnv ip) (tcpEnv ip) ip mode tcp_port timeoutMs delayMs

/-- The summary dict built by `ping_sweeper.sweep` (timestamps and echoed
numeric configuration omitted as inert). -/
structure SweepSummary where
  subnet : String
  mode : String
  tcp_port : Option Int
  results : List PingOut
deriving Repr

/-- `ping_sweeper.sweep` (lines 76–104): results are stored in completion
order; no sort is applied before the summary is built. -/
def sweep (icmpEnv : String → Bool) (tcpEnv : String → Bool)
    (fault : String → Option String) (pfx : String) (mode : String)
    (tcp_port : Int) (timeoutMs : Nat) (delayMs : Nat) (workers : Nat)
    (order : List String) : SweepSummary :=
  { subnet := pfx ++ ".0/24", mode := mode,
    tcp_port := if mode = "tcp" then some tcp_port else none,
    results := order.map
      (sweepResultFor icmpEnv tcpEnv fault mode tcp_port timeoutMs delayMs) }

/-- The enumeration-then-scan flow of `port_scan.main` (lines 102–104):
`parse_ports` runs to completion before `run_scan` is invoked, so a
`ValueError` aborts with no probe dispatched.  `orderOf` supplies the
completion order for whatever target list enumeration produces. -/
def port_scan_pipeline (spec : Option String) (env : Int → SpEnv)
    (fault : Int → Option String) (host : String) (timeoutMs : Nat)
    (workers : Nat) (do_banner : Bool)
    (orderOf : List Int → List Int) : Except PyErr ScanSummary :=
  (parse_ports spec).map
    (fun ports =>
      run_scan env fault host ports timeoutMs workers do_banner (orderOf ports))

/-! ### Helper lemmas: each appended record names the target it was
submitted for, in every branch of every probe. -/

theorem scan_port_port (env : SpEnv) (host : String) (p : Int) (t : Nat)
    (b : Bool) : (scan_port env host p t b).port = p := by
  unfold scan_port
  cases hc : env.connectEx <;> cases hr : env.recvB <;> (try dsimp only) <;>
    (repeat' split) <;> rfl

theorem spResultFor_port (env : Int → SpEnv) (fault : Int → Option String)
    (host : String) (t : Nat) (b : Bool) (p : Int) :
    (spResultFor env fault host t b p).port = p := by
  unfold spResultFor
  rcases fault p with _ | e
  · exact scan_port_port _ _ _ _ _
  · rfl

theorem try_banner_host (env : BgEnv) (h : String) (p : Int) (t : Nat)
    (a b : Bool) : (try_banner env h p t a b).host = h := by
  unfold try_banner
  cases hc : env.connect <;> cases hw : env.wrapErr <;> cases hr : env.recv <;>
    (try dsimp only) <;> (repeat' split) <;> rfl

theorem try_banner_port (env : BgEnv) (h : String) (p : Int) (t : Nat)
    (a b : Bool) : (try_banner env h p t a b).port = p := by
  unfold try_banner
  cases hc : env.connect <;> cases hw : env.wrapErr <;> cases hr : env.recv <;>
    (try dsimp only) <;> (repeat' split) <;> rfl

theorem bgResultFor_target (env : String → Int → BgEnv)
    (fault : String → Int → Option String) (t : Nat) (a b : Bool)
    (tg : String × Int) :
    ((bgResultFor env fault t a b tg).host, (bgResultFor env fault t a b tg).port) = tg := by
  unfold bgResultFor
  rcases fault tg.1 tg.2 with _ | e
  · dsimp only
    rw [try_banner_host, try_banner_port]
  · rfl

theorem scan_ip_ip (a b : Bool) (ip : String) (m : String) (tp : Int)
    (t d : Nat) : (scan_ip a b ip m tp t d).ip = ip := by
  unfold scan_ip
  split <;> rfl

theorem sweepResultFor_ip (icmpEnv tcpEnv : String → Bool)
    (fault : String → Option String) (m : String) (tp : Int) (t d : Nat)
    (ip : String) :
    (sweepResultFor icmpEnv tcpEnv fault m tp t d ip).ip = ip := by
  unfold sweepResultFor
  rcases fault ip with _ | e
  · exact scan_ip_ip _ _ _ _ _ _ _
  · rfl

/-! ### Claim theorems -/

/-- C7 counterexample: the claim quantifies over both parsers, but
`banner_grab.parse_ports` maps an empty or absent specification to the
empty list, not to the default range 1..100. -/
theorem C7_counterexample :
    bg_parse_ports (some "") = .ok ([] : List Int) ∧
    bg_parse_ports none = .ok ([] : List Int) ∧
    defaultPorts ≠ ([] : List Int) := by
  refine ⟨rfl, rfl, ?_⟩
  decide

/-- C7 (amended): `port_scan.parse_ports` maps an empty or absent port
specification to the default range 1..100 inclusive (100 ports, from 1 to
100 — never 1..65535, never empty), while `banner_grab.parse_ports` maps an
empty or absent specification to the empty list. -/
theorem C7_default_range :
    parse_ports none = .ok defaultPorts ∧
    parse_ports (some "") = .ok defaultPorts ∧
    defaultPorts = (List.range' 1 100).map (fun n => (n : Int)) ∧
    defaultPorts.length = 100 ∧
    defaultPorts.head? = some 1 ∧
    defaultPorts.getLast? = some 100 ∧
    defaultPorts ≠ [] ∧
    bg_parse_ports none = .ok [] ∧
    bg_parse_ports (some "") = .ok [] := by
  refine ⟨rfl, rfl, rfl, ?_, ?_, ?_, ?_, rfl, rfl⟩ <;> decide

/-- C3 counterexample: connection established (`connect = ok`) and the read
yields zero bytes (`recv = ok ""`), yet the outcome has `success = false`
(the claim asserts `succeeded = true`); the source only sets
`out["success"] = True` under `if data:`. -/
theorem C3_counterexample :
    try_banner
      { connect := .ok, wrapErr := none, sendRaises := false,
        recv := .ok "", elapsedMs := 5 } "h" 22 2000 true false =
      { host := "h", port := 22, success := false, banner := none,
        error := none, elapsed_ms := some 5, probing := some "tcp" } := by
  decide

/-- C3 (amended): for every TCP_BANNER probe in which the connection is
established and the read yields zero bytes, the outcome keeps
`success = false` with `banner = None`; no error is recorded for it (when
the TLS-wrap path did not run, `error` is `None` outright).  The zero-byte
read is thus not classified as a failure, but neither is it a success. -/
theorem C3_zero_byte_read (env : BgEnv) (host : String) (port : Int)
    (timeoutMs : Nat) (hp ssl : Bool)
    (hc : env.connect = .ok) (hr : env.recv = .ok "") :
    (try_banner env host port timeoutMs hp ssl).success = false ∧
    (try_banner env host port timeoutMs hp ssl).banner = none ∧
    (ssl = false → port ≠ 443 → port ≠ 8443 →
      (try_banner env host port timeoutMs hp ssl).error = none) := by
  unfold try_banner
  rw [hc, hr]
  cases hw : env.wrapErr <;>
    refine ⟨?_, ?_, fun h1 h2 h3 => ?_⟩ <;>
    (try dsimp only) <;> (repeat' split) <;> simp_all

/-- Witness for `C3_zero_byte_read` at a concrete environment. -/
theorem C3_zero_byte_read_witness :
    ({ connect := .ok, wrapErr := none, sendRaises := false,
       recv := .ok "", elapsedMs := 7 } : BgEnv).connect = .ok ∧
    ({ connect := .ok, wrapErr := none, sendRaises := false,
       recv := .ok "", elapsedMs := 7 } : BgEnv).recv = .ok "" ∧
    ((try_banner
        { connect := .ok, wrapErr := none, sendRaises := false,
          recv := .ok "", elapsedMs := 7 } "x" 8022 1000 false false).success = false ∧
      (try_banner
        { connect := .ok, wrapErr := none, sendRaises := false,
          recv := .ok "", elapsedMs := 7 } "x" 8022 1000 false false).banner = none ∧
      (false = false → (8022 : Int) ≠ 443 → (8022 : Int) ≠ 8443 →
        (try_banner
          { connect := .ok, wrapErr := none, sendRaises := false,
            recv := .ok "", elapsedMs := 7 } "x" 8022 1000 false false).error = none)) :=
  ⟨rfl, rfl, C3_zero_byte_read _ "x" 8022 1000 false false rfl rfl⟩

/-- C10: when TLS wrapping fails (`wrap_socket` raises, caught locally) and
the subsequent plain-socket read returns data, the outcome has
`success = true` while `error` still holds the recorded
`ssl_wrap_error: …` — a non-null `error` does not imply a failed probe. -/
theorem C10_tls_error_with_success (env : BgEnv) (host : String) (port : Int)
    (timeoutMs : Nat) (hp ssl : Bool) (e d : String)
    (hc : env.connect = .ok)
    (htls : ssl = true ∨ port = 443 ∨ port = 8443)
    (hw : env.wrapErr = some e)
    (hr : env.recv = .ok d) (hd : d ≠ "") :
    (try_banner env host port timeoutMs hp ssl).success = true ∧
    (try_banner env host port timeoutMs hp ssl).error =
      some ("ssl_wrap_error: " ++ e) := by
  unfold try_banner
  rw [hc, hw, hr]
  dsimp only
  rw [if_pos htls, if_neg hd]
  exact ⟨rfl, rfl⟩

/-- Witness for `C10_tls_error_with_success` at a concrete environment:
port 443 with a failed handshake and a nonempty banner read. -/
theorem C10_tls_error_with_success_witness :
    ({ connect := .ok, wrapErr := some "handshake failure", sendRaises := false,
       recv := .ok "HTTP/1.1 200 OK", elapsedMs := 12 } : BgEnv).connect = .ok ∧
    ((false : Bool) = true ∨ (443 : Int) = 443 ∨ (443 : Int) = 8443) ∧
    ("HTTP/1.1 200 OK" : String) ≠ "" ∧
    ((try_banner
        { connect := .ok, wrapErr := some "handshake failure", sendRaises := false,
          recv := .ok "HTTP/1.1 200 OK", elapsedMs := 12 } "h" 443 2000 true false).success = true ∧
      (try_banner
        { connect := .ok, wrapErr := some "handshake failure", sendRaises := false,
          recv := .ok "HTTP/1.1 200 OK", elapsedMs := 12 } "h" 443 2000 true false).error =
        some ("ssl_wrap_error: " ++ "handshake failure")) :=
  ⟨rfl, Or.inr (Or.inl rfl), by decide,
    C10_tls_error_with_success _ "h" 443 2000 true false "handshake failure"
      "HTTP/1.1 200 OK" rfl (Or.inr (Or.inl rfl)) rfl rfl (by decide)⟩

/-- C5 counterexample: a refused connection makes `scan_port`'s
`connect_ex` return a nonzero errno (111 = `ECONNREFUSED`) without raising;
the result is `open=False` with `error=None` — no `ConnectError` is
recorded, contradicting the claim for this probe. -/
theorem C5_counterexample :
    scan_port { connectEx := .ret 111, recvB := .ok "" } "h" 80 500 false =
      { port := 80, isOpen := false, banner := none, error := none } := by
  decide

/-- C5 (amended): only `try_banner` classifies connect failures: a
connection attempt that raises an exception (e.g. actively refused) yields
`succeeded=false` with `error = connect_error: …` (`ConnectError`), and one
that exceeds the connect timeout yields `succeeded=false` with
`error = connect_timeout` (`ConnectTimeout`).  `scan_port` reports a
refused connection (nonzero `connect_ex` errno) as `open=False` with
`error=None`, and records an error only when the attempt raises. -/
theorem C5_connect_classification (env : BgEnv) (senv : SpEnv) (host : String)
    (port sport : Int) (timeoutMs st : Nat) (hp ssl sb : Bool) :
    (∀ m, env.connect = .exn m →
      (try_banner env host port timeoutMs hp ssl).success = false ∧
      (try_banner env host port timeoutMs hp ssl).error =
        some ("connect_error: " ++ m)) ∧
    (env.connect = .timeout →
      (try_banner env host port timeoutMs hp ssl).success = false ∧
      (try_banner env host port timeoutMs hp ssl).error =
        some "connect_timeout") ∧
    (∀ r, senv.connectEx = .ret r → r ≠ 0 →
      (scan_port senv host sport st sb).isOpen = false ∧
      (scan_port senv host sport st sb).error = none) ∧
    (∀ m, senv.connectEx = .exn m →
      (scan_port senv host sport st sb).error = some m) := by
  refine ⟨fun m hm => ?_, fun ht => ?_, fun r hr hr0 => ?_, fun m hm => ?_⟩
  · unfold try_banner
    rw [hm]
    exact ⟨rfl, rfl⟩
  · unfold try_banner
    rw [ht]
    exact ⟨rfl, rfl⟩
  · unfold scan_port
    rw [hr]
    dsimp only
    rw [if_neg hr0]
    exact ⟨rfl, rfl⟩
  · unfold scan_port
    rw [hm]

/-- Witness for `C5_connect_classification` at concrete environments:
a raising connect for `try_banner` and a refused errno for `scan_port`. -/
theorem C5_connect_classification_witness :
    ({ connect := .exn "Connection refused", wrapErr := none,
       sendRaises := false, recv := .ok "", elapsedMs := 3 } : BgEnv).connect =
      .exn "Connection refused" ∧
    ({ connectEx := .ret 111, recvB := .ok "" } : SpEnv).connectEx = .ret 111 ∧
    (111 : Int) ≠ 0 ∧
    ((try_banner
        { connect := .exn "Connection refused", wrapErr := none,
          sendRaises := false, recv := .ok "", elapsedMs := 3 }
        "h" 8080 1000 true false).success = false ∧
      (try_banner
        { connect := .exn "Connection refused", wrapErr := none,
          sendRaises := false, recv := .ok "", elapsedMs := 3 }
        "h" 8080 1000 true false).error =
        some ("connect_error: " ++ "Connection refused")) ∧
    ((scan_port { connectEx := .ret 111, recvB := .ok "" } "h" 22 500 false).isOpen = false ∧
      (scan_port { connectEx := .ret 111, recvB := .ok "" } "h" 22 500 false).error = none) :=
  ⟨rfl, rfl, by decide,
    (C5_connect_classification
      { connect := .exn "Connection refused", wrapErr := none,
        sendRaises := false, recv := .ok "", elapsedMs := 3 }
      { connectEx := .ret 111, recvB := .ok "" }
      "h" 8080 22 1000 500 true false false).1 "Connection refused" rfl,
    (C5_connect_classification
      { connect := .exn "Connection refused", wrapErr := none,
        sendRaises := false, recv := .ok "", elapsedMs := 3 }
      { connectEx := .ret 111, recvB := .ok "" }
      "h" 8080 22 1000 500 true false false).2.2.1 111 rfl (by decide)⟩

/-- C4 counterexample: a refused connection (errno 111 from `connect_ex`)
is a transport-level failure, yet `scan_port` returns `open=False` with
`error=None` — the error field is not set, contradicting the claim. -/
theorem C4_counterexample :
    scan_port { connectEx := .ret 111, recvB := .error "unused" } "host" 22 1000 true =
      { port := 22, isOpen := false, banner := none, error := none } := by
  decide

/-- C4 (amended): no probe raises past its boundary (each is a total
function of its transport environment) and each reports failure with
`succeeded=false`; but the error field is only guaranteed for `try_banner`
(every connect/read failure sets it) and for `scan_port` when the attempt
raises an exception.  A `scan_port` refusal reported through a nonzero
`connect_ex` errno leaves `error=None`, and `scan_ip` never records an
error at all — failure is only `alive=false`. -/
theorem C4_failure_reporting (env : BgEnv) (senv : SpEnv) (host ip m : String)
    (port sport tcp_port : Int) (timeoutMs st pt pd : Nat)
    (hp ssl sb iok tok : Bool) :
    ((env.connect = .timeout ∨ (∃ e, env.connect = .exn e)) →
      (try_banner env host port timeoutMs hp ssl).success = false ∧
      (try_banner env host port timeoutMs hp ssl).error ≠ none) ∧
    (env.connect = .ok →
      (env.recv = .timeout ∨ (∃ e, env.recv = .exn e)) →
      (try_banner env host port timeoutMs hp ssl).success = false ∧
      (try_banner env host port timeoutMs hp ssl).error ≠ none) ∧
    (∀ e, senv.connectEx = .exn e →
      scan_port senv host sport st sb =
        { port := sport, isOpen := false, banner := none, error := some e }) ∧
    (∀ r, senv.connectEx = .ret r → r ≠ 0 →
      (scan_port senv host sport st sb).isOpen = false ∧
      (scan_port senv host sport st sb).error = none) ∧
    (scan_ip iok tok ip m tcp_port pt pd).error = none := by
  refine ⟨fun hcf => ?_, fun hok hrf => ?_, fun e he => ?_, fun r hr hr0 => ?_, ?_⟩
  · unfold try_banner
    rcases hcf with ht | ⟨e, he⟩
    · rw [ht]
      exact ⟨rfl, by simp⟩
    · rw [he]
      exact ⟨rfl, by simp⟩
  · unfold try_banner
    rw [hok]
    rcases hrf with ht | ⟨e, he⟩ <;> [rw [ht]; rw [he]] <;>
      dsimp only <;> cases hw : env.wrapErr <;> (repeat' split) <;> simp_all
  · unfold scan_port
    rw [he]
  · unfold scan_port
    rw [hr]
    dsimp only
    rw [if_neg hr0]
    exact ⟨rfl, rfl⟩
  · unfold scan_ip
    split <;> rfl

/-- A `try_banner` environment whose connect attempt times out (used by the
`C4_failure_reporting` witness). -/
def bgEnvConnTimeout : BgEnv :=
  { connect := .timeout, wrapErr := none, sendRaises := false,
    recv := .ok "", elapsedMs := 1000 }

/-- A `scan_port` environment whose connect attempt raises (used by the
`C4_failure_reporting` witness). -/
def spEnvConnExn : SpEnv :=
  { connectEx := .exn "timed out", recvB := .ok "" }

/-- Witness for `C4_failure_reporting` at concrete environments: a timing
out connect for `try_banner`, a raising connect for `scan_port`, and an
icmp-mode `scan_ip`. -/
theorem C4_failure_reporting_witness :
    (bgEnvConnTimeout.connect = .timeout ∨
      (∃ e, bgEnvConnTimeout.connect = .exn e)) ∧
    ((try_banner bgEnvConnTimeout "h" 80 1000 true false).success = false ∧
      (try_banner bgEnvConnTimeout "h" 80 1000 true false).error ≠ none) ∧
    spEnvConnExn.connectEx = .exn "timed out" ∧
    scan_port spEnvConnExn "h" 443 500 false =
      { port := 443, isOpen := false, banner := none, error := some "timed out" } ∧
    (scan_ip false false "10.0.0.9" "icmp" 80 1000 20).error = none :=
  ⟨Or.inl rfl,
    (C4_failure_reporting bgEnvConnTimeout spEnvConnExn
      "h" "10.0.0.9" "icmp" 80 443 80 1000 500 1000 20 true false false false false).1
      (Or.inl rfl),
    rfl,
    (C4_failure_reporting bgEnvConnTimeout spEnvConnExn
      "h" "10.0.0.9" "icmp" 80 443 80 1000 500 1000 20 true false false false false).2.2.1
      "timed out" rfl,
    (C4_failure_reporting bgEnvConnTimeout spEnvConnExn
      "h" "10.0.0.9" "icmp" 80 443 80 1000 500 1000 20 true false false false false).2.2.2.2⟩

/-- C1: whatever the completion order (any permutation of the submitted
targets), each scheduler's report holds exactly one outcome per enumerated
target — the multiset of outcome keys equals the multiset of targets, with
equal length and equal per-target counts — including targets whose future
raised (for which the synthesized record keeps the target's key).  The
worker limit and timeouts are inert parameters. -/
theorem C1_one_outcome_per_target
    (env : Int → SpEnv) (fault : Int → Option String) (host : String)
    (ports : List Int) (tm w : Nat) (b : Bool) (order : List Int)
    (h1 : order.Perm ports)
    (benv : String → Int → BgEnv) (bfault : String → Int → Option String)
    (bt bw : Nat) (hp sf : Bool) (btargets border : List (String × Int))
    (h2 : border.Perm btargets)
    (ie te : String → Bool) (sfault : String → Option String)
    (pfx mode : String) (tp : Int) (st sd sw : Nat) (sorder : List String)
    (h3 : sorder.Perm (sweepIps pfx)) :
    ((run_scan env fault host ports tm w b order).results.map
      (fun r => r.port)).Perm ports ∧
    (run_scan env fault host ports tm w b order).results.length = ports.length ∧
    (∀ p : Int, ((run_scan env fault host ports tm w b order).results.map
      (fun r => r.port)).count p = ports.count p) ∧
    ((run_bulk benv bfault bt bw hp sf border).map
      (fun r => (r.host, r.port))).Perm btargets ∧
    (run_bulk benv bfault bt bw hp sf border).length = btargets.length ∧
    ((sweep ie te sfault pfx mode tp st sd sw sorder).results.map
      (fun r => r.ip)).Perm (sweepIps pfx) ∧
    (sweep ie te sfault pfx mode tp st sd sw sorder).results.length =
      (sweepIps pfx).length := by
  have hp1 : (order.map (spResultFor env fault host tm b)).map
      (fun r => r.port) = order := by
    rw [List.map_map]
    calc order.map ((fun r => r.port) ∘ spResultFor env fault host tm b)
        = order.map id :=
          List.map_congr_left (fun a _ => spResultFor_port env fault host tm b a)
      _ = order := List.map_id order
  have hscanPerm : ((run_scan env fault host ports tm w b order).results.map
      (fun r => r.port)).Perm ports := by
    have h0 := (List.mergeSort_perm
      (order.map (spResultFor env fault host tm b))
      (fun x y => decide (x.port ≤ y.port))).map (fun r => r.port)
    rw [hp1] at h0
    exact h0.trans h1
  have hb1 : (border.map (bgResultFor benv bfault bt hp sf)).map
      (fun r => (r.host, r.port)) = border := by
    rw [List.map_map]
    calc border.map ((fun r => (r.host, r.port)) ∘ bgResultFor benv bfault bt hp sf)
        = border.map id :=
          List.map_congr_left (fun a _ => bgResultFor_target benv bfault bt hp sf a)
      _ = border := List.map_id border
  have hs1 : (sorder.map (sweepResultFor ie te sfault mode tp st sd)).map
      (fun r => r.ip) = sorder := by
    rw [List.map_map]
    calc sorder.map ((fun r => r.ip) ∘ sweepResultFor ie te sfault mode tp st sd)
        = sorder.map id :=
          List.map_congr_left (fun a _ => sweepResultFor_ip ie te sfault mode tp st sd a)
      _ = sorder := List.map_id sorder
  refine ⟨hscanPerm, ?_, fun p => hscanPerm.count_eq p, ?_, ?_, ?_, ?_⟩
  · have := hscanPerm.length_eq
    simpa using this
  · show ((border.map (bgResultFor benv bfault bt hp sf)).map
      (fun r => (r.host, r.port))).Perm btargets
    rw [hb1]
    exact h2
  · show (border.map (bgResultFor benv bfault bt hp sf)).length = btargets.length
    rw [List.length_map]
    exact h2.length_eq
  · show ((sorder.map (sweepResultFor ie te sfault mode tp st sd)).map
      (fun r => r.ip)).Perm (sweepIps pfx)
    rw [hs1]
    exact h3
  · show (sorder.map (sweepResultFor ie te sfault mode tp st sd)).length =
      (sweepIps pfx).length
    rw [List.length_map]
    exact h3.length_eq

/-- Witness for `C1_one_outcome_per_target` at concrete inputs: two ports
completed in reversed order (one of them via a raising future), two banner
targets in reversed order, and a /24 sweep completing in enumeration
order. -/
theorem C1_one_outcome_per_target_witness :
    ([(80 : Int), 22]).Perm [22, 80] ∧
    ([("h", (80 : Int)), ("h", 22)]).Perm [("h", 22), ("h", 80)] ∧
    (sweepIps "10.0.0").Perm (sweepIps "10.0.0") ∧
    ((run_scan (fun _ => spEnvConnExn) (fun p => if p = 22 then some "pool fault" else none)
        "h" [22, 80] 500 100 false [80, 22]).results.map (fun r => r.port)).Perm [22, 80] ∧
    ((run_bulk (fun _ _ => bgEnvConnTimeout) (fun _ _ => none) 2000 50 true false
        [("h", 80), ("h", 22)]).map (fun r => (r.host, r.port))).Perm [("h", 22), ("h", 80)] ∧
    ((sweep (fun _ => false) (fun _ => false) (fun _ => none) "10.0.0" "tcp" 80 1000 20 100
        (sweepIps "10.0.0")).results.map (fun r => r.ip)).Perm (sweepIps "10.0.0") := by
  have h := C1_one_outcome_per_target (fun _ => spEnvConnExn)
    (fun p => if p = 22 then some "pool fault" else none) "h" [22, 80] 500 100 false
    [80, 22] (by decide) (fun _ _ => bgEnvConnTimeout) (fun _ _ => none) 2000 50
    true false [("h", 22), ("h", 80)] [("h", 80), ("h", 22)] (by decide)
    (fun _ => false) (fun _ => false) (fun _ => none) "10.0.0" "tcp" 80 1000 20 100
    (sweepIps "10.0.0") (List.Perm.refl _)
  exact ⟨by decide, by decide, List.Perm.refl _, h.1, h.2.2.2.1, h.2.2.2.2.2.1⟩

/-- A per-target `try_banner` environment whose connect is refused (used by
the C2 counterexample). -/
def bgEnvRefusedAll : String → Int → BgEnv :=
  fun _ _ =>
    { connect := .exn "refused", wrapErr := none, sendRaises := false,
      recv := .ok "", elapsedMs := 1 }

/-- A fault-free scheduler for the C2 counterexample. -/
def bgFaultNone : String → Int → Option String := fun _ _ => none

/-- C2 counterexample: a completed `run_bulk` scan (its completion order a
permutation of the two targets) whose outcomes are NOT sorted ascending by
the canonical port key — `run_bulk` keeps completion order and never
sorts. -/
theorem C2_counterexample :
    ([("h", (80 : Int)), ("h", 22)]).Perm [("h", 22), ("h", 80)] ∧
    (run_bulk bgEnvRefusedAll bgFaultNone 2000 50 true false
      [("h", 80), ("h", 22)]).map (fun r => r.port) = [80, 22] ∧
    ¬ List.Sorted (fun a b => a ≤ b) ([(80 : Int), 22]) := by
  refine ⟨by decide, by decide, by decide⟩

/-- C2 (amended): only `run_scan` sorts its outcomes (ascending by port,
whatever the completion order); `run_bulk` and `sweep` return their
outcomes exactly in completion order — the i-th outcome is for the i-th
completed target — which need not be the canonical order. -/
theorem C2_canonical_order
    (env : Int → SpEnv) (fault : Int → Option String) (host : String)
    (ports : List Int) (tm w : Nat) (b : Bool) (order : List Int)
    (benv : String → Int → BgEnv) (bfault : String → Int → Option String)
    (bt bw : Nat) (hp sf : Bool) (border : List (String × Int))
    (ie te : String → Bool) (sfault : String → Option String)
    (pfx mode : String) (tp : Int) (st sd sw : Nat) (sorder : List String) :
    List.Pairwise (fun x y : SpOut => x.port ≤ y.port)
      (run_scan env fault host ports tm w b order).results ∧
    (run_bulk benv bfault bt bw hp sf border).map
      (fun r => (r.host, r.port)) = border ∧
    (sweep ie te sfault pfx mode tp st sd sw sorder).results.map
      (fun r => r.ip) = sorder := by
  refine ⟨?_, ?_, ?_⟩
  · have hs : ((order.map (spResultFor env fault host tm b)).mergeSort
        (fun x y => decide (x.port ≤ y.port))).Pairwise
        (fun x y : SpOut => decide (x.port ≤ y.port) = true) :=
      List.sorted_mergeSort
        (fun x y z hxy hyz => by
          simp only [decide_eq_true_eq] at *
          exact le_trans hxy hyz)
        (fun x y => by
          simp only [Bool.or_eq_true, decide_eq_true_eq]
          exact le_total x.port y.port)
        (order.map (spResultFor env fault host tm b))
    exact hs.imp (fun h => by simpa using h)
  · rw [show run_bulk benv bfault bt bw hp sf border =
      border.map (bgResultFor benv bfault bt hp sf) from rfl, List.map_map]
    calc border.map ((fun r => (r.host, r.port)) ∘ bgResultFor benv bfault bt hp sf)
        = border.map id :=
          List.map_congr_left (fun a _ => bgResultFor_target benv bfault bt hp sf a)
      _ = border := List.map_id border
  · rw [show (sweep ie te sfault pfx mode tp st sd sw sorder).results =
      sorder.map (sweepResultFor ie te sfault mode tp st sd) from rfl, List.map_map]
    calc sorder.map ((fun r => r.ip) ∘ sweepResultFor ie te sfault mode tp st sd)
        = sorder.map id :=
          List.map_congr_left (fun a _ => sweepResultFor_ip ie te sfault mode tp st sd a)
      _ = sorder := List.map_id sorder

/-- Whether the token loop parses an (unstripped) token without raising:
after stripping, a token with `-` needs both halves of the first split to
be valid integers, any other token must itself be a valid integer. -/
def tokenOk (t : String) : Bool :=
  let p := pyStrip t
  if p.toList.contains '-' then
    (pyInt (pySplitFirst '-' p).1).isSome && (pyInt (pySplitFirst '-' p).2).isSome
  else (pyInt p).isSome

/-- The integers a well-formed token specifies: the inclusive range `a..b`
for an `a-b` token (empty when `b < a`), the single integer otherwise. -/
def tokenInts (t : String) : List Int :=
  let p := pyStrip t
  if p.toList.contains '-' then
    match pyInt (pySplitFirst '-' p).1, pyInt (pySplitFirst '-' p).2 with
    | some a, some b => intRange a b
    | _, _ => []
  else
    match pyInt p with
    | some v => [v]
    | none => []

/-- The union (with multiplicity) of the integers specified by all
comma-separated tokens of a specification string. -/
def specInts (s : String) : List Int :=
  ((pySplit ',' s).map tokenInts).flatten

/-- When every token parses, the token loop returns the accumulated
specified integers in token order. -/
theorem collectPorts_ok (parts : List String) :
    ∀ acc : List Int, (∀ t ∈ parts, tokenOk t = true) →
    collectPorts parts acc = .ok (acc ++ (parts.map tokenInts).flatten) := by
  induction parts with
  | nil =>
    intro acc h
    simp [collectPorts]
  | cons part rest ih =>
    intro acc h
    have hhd : tokenOk part = true := h part (by simp)
    have htl : ∀ t ∈ rest, tokenOk t = true := fun t ht => h t (by simp [ht])
    simp only [tokenOk] at hhd
    by_cases hc : (pyStrip part).toList.contains '-' = true
    · rw [if_pos hc, Bool.and_eq_true] at hhd
      obtain ⟨a, ha⟩ := Option.isSome_iff_exists.mp hhd.1
      obtain ⟨b, hb⟩ := Option.isSome_iff_exists.mp hhd.2
      have htok : tokenInts part = intRange a b := by
        simp only [tokenInts]
        rw [if_pos hc, ha, hb]
      simp only [collectPorts]
      rw [if_pos hc, ha, hb]
      dsimp only
      rw [ih (acc ++ intRange a b) htl]
      simp [htok, List.append_assoc]
    · rw [if_neg hc] at hhd
      obtain ⟨v, hv⟩ := Option.isSome_iff_exists.mp hhd
      have htok : tokenInts part = [v] := by
        simp only [tokenInts]
        rw [if_neg hc, hv]
      simp only [collectPorts]
      rw [if_neg hc, hv]
      dsimp only
      rw [ih (acc ++ [v]) htl]
      simp [htok, List.append_assoc]

/-- `finishPorts` output is sorted ascending. -/
theorem finishPorts_sorted (l : List Int) :
    List.Pairwise (fun a b : Int => a ≤ b) (finishPorts l) := by
  have hs : ((l.filter (fun p => decide (1 ≤ p ∧ p ≤ 65535))).dedup.mergeSort
      (fun a b => decide (a ≤ b))).Pairwise
      (fun a b : Int => decide (a ≤ b) = true) :=
    List.sorted_mergeSort
      (fun x y z hxy hyz => by
        simp only [decide_eq_true_eq] at *
        exact le_trans hxy hyz)
      (fun x y => by
        simp only [Bool.or_eq_true, decide_eq_true_eq]
        exact le_total x y)
      ((l.filter (fun p => decide (1 ≤ p ∧ p ≤ 65535))).dedup)
  exact hs.imp (fun h => by simpa using h)

/-- `finishPorts` output has no duplicates. -/
theorem finishPorts_nodup (l : List Int) : (finishPorts l).Nodup := by
  unfold finishPorts
  rw [List.Perm.nodup_iff (List.mergeSort_perm _ _)]
  exact List.nodup_dedup _

/-- Membership in `finishPorts l`: exactly the in-range values of `l`. -/
theorem finishPorts_mem (l : List Int) (p : Int) :
    p ∈ finishPorts l ↔ p ∈ l ∧ 1 ≤ p ∧ p ≤ 65535 := by
  unfold finishPorts
  rw [List.mem_mergeSort, List.mem_dedup, List.mem_filter]
  simp

/-- C6: for every nonempty comma-separated specification whose tokens are
single integers or `a-b` inclusive ranges, `parse_ports` returns exactly
the union of the specified integers restricted to `[1, 65535]`,
deduplicated and sorted ascending; parsed values below 1 or above 65535
are silently discarded. -/
theorem C6_parse_ports_union (s : String) (hne : s ≠ "")
    (hwf : ∀ t ∈ pySplit ',' s, tokenOk t = true) :
    parse_ports (some s) = .ok (finishPorts (specInts s)) ∧
    List.Pairwise (fun a b : Int => a ≤ b) (finishPorts (specInts s)) ∧
    (finishPorts (specInts s)).Nodup ∧
    (∀ p : Int, p ∈ finishPorts (specInts s) ↔
      p ∈ specInts s ∧ 1 ≤ p ∧ p ≤ 65535) := by
  refine ⟨?_, finishPorts_sorted _, finishPorts_nodup _,
    fun p => finishPorts_mem _ p⟩
  unfold parse_ports
  dsimp only
  rw [if_neg hne, collectPorts_ok (pySplit ',' s) [] hwf]
  rfl

unseal List.merge List.mergeSort in
/-- Witness for `C6_parse_ports_union` on the concrete specification
`"80,22,443-445,0,70000"`: well-formed tokens, result `[22, 80, 443, 444,
445]` (0 and 70000 discarded, range expanded, sorted, deduplicated). -/
theorem C6_parse_ports_union_witness :
    (("80,22,443-445,0,70000" : String) ≠ "") ∧
    (∀ t ∈ pySplit ',' "80,22,443-445,0,70000", tokenOk t = true) ∧
    parse_ports (some "80,22,443-445,0,70000") =
      .ok (finishPorts (specInts "80,22,443-445,0,70000")) ∧
    finishPorts (specInts "80,22,443-445,0,70000") = [22, 80, 443, 444, 445] :=
  ⟨by decide, by decide,
    (C6_parse_ports_union "80,22,443-445,0,70000" (by decide) (by decide)).1,
    by decide⟩

/-- C8: the enumerator expands a prefix `a.b.c` to exactly the 254 hosts
`a.b.c.1 … a.b.c.254` (last octets `1..254` in strictly ascending order —
`.0` and `.255` excluded), and a completed /24 sweep's report holds exactly
254 outcomes, one per host, for any completion order. -/
theorem C8_subnet_expansion (pfx : String) (ie te : String → Bool)
    (sfault : String → Option String) (mode : String) (tp : Int)
    (st sd sw : Nat) (order : List String)
    (h : order.Perm (sweepIps pfx)) :
    sweepIps pfx = (List.range' 1 254).map (fun i => pfx ++ "." ++ toString i) ∧
    (sweepIps pfx).length = 254 ∧
    List.Pairwise (fun a b : Nat => a < b) (List.range' 1 254) ∧
    (∀ i ∈ List.range' 1 254, 1 ≤ i ∧ i ≤ 254) ∧
    (sweep ie te sfault pfx mode tp st sd sw order).results.length = 254 ∧
    ((sweep ie te sfault pfx mode tp st sd sw order).results.map
      (fun r => r.ip)).Perm (sweepIps pfx) := by
  have hmap : (order.map (sweepResultFor ie te sfault mode tp st sd)).map
      (fun r => r.ip) = order := by
    rw [List.map_map]
    calc order.map ((fun r => r.ip) ∘ sweepResultFor ie te sfault mode tp st sd)
        = order.map id :=
          List.map_congr_left (fun a _ => sweepResultFor_ip ie te sfault mode tp st sd a)
      _ = order := List.map_id order
  refine ⟨rfl, ?_, List.pairwise_lt_range' 1 254, ?_, ?_, ?_⟩
  · simp [sweepIps]
  · intro i hi
    rw [List.mem_range'_1] at hi
    omega
  · show (order.map (sweepResultFor ie te sfault mode tp st sd)).length = 254
    rw [List.length_map, h.length_eq]
    simp [sweepIps]
  · show ((order.map (sweepResultFor ie te sfault mode tp st sd)).map
      (fun r => r.ip)).Perm (sweepIps pfx)
    rw [hmap]
    exact h

/-- Witness for `C8_subnet_expansion`: the `"10.0.0"` sweep of the spec's
end-to-end scenario (TCP-fallback mode, port 80), completing in enumeration
order. -/
theorem C8_subnet_expansion_witness :
    (sweepIps "10.0.0").Perm (sweepIps "10.0.0") ∧
    (sweepIps "10.0.0").length = 254 ∧
    (sweep (fun _ => false) (fun _ => true) (fun _ => none) "10.0.0" "tcp" 80
      1000 0 100 (sweepIps "10.0.0")).results.length = 254 ∧
    ((sweep (fun _ => false) (fun _ => true) (fun _ => none) "10.0.0" "tcp" 80
      1000 0 100 (sweepIps "10.0.0")).results.map
      (fun r => r.ip)).Perm (sweepIps "10.0.0") :=
  ⟨List.Perm.refl _,
    (C8_subnet_expansion "10.0.0" (fun _ => false) (fun _ => true)
      (fun _ => none) "tcp" 80 1000 0 100 (sweepIps "10.0.0")
      (List.Perm.refl _)).2.1,
    (C8_subnet_expansion "10.0.0" (fun _ => false) (fun _ => true)
      (fun _ => none) "tcp" 80 1000 0 100 (sweepIps "10.0.0")
      (List.Perm.refl _)).2.2.2.2.1,
    (C8_subnet_expansion "10.0.0" (fun _ => false) (fun _ => true)
      (fun _ => none) "tcp" 80 1000 0 100 (sweepIps "10.0.0")
      (List.Perm.refl _)).2.2.2.2.2⟩

/-- Whether a target-file line makes `read_targets_file` raise: after
stripping it is nonblank, not a `#` comment, contains `:`, and the part
after the first `:` is not a valid integer. -/
def lineBad (l : String) : Bool :=
  let t := pyStrip l
  (!(decide (t = ""))) && (!(decide (t.toList.head? = some '#'))) &&
    t.toList.contains ':' && (pyInt (pyStrip (pySplitFirst ':' t).2)).isNone

/-- When some token fails to parse, the token loop raises `ValueError`
(whatever was accumulated is discarded). -/
theorem collectPorts_err (parts : List String) :
    ∀ acc : List Int, (∃ t ∈ parts, tokenOk t = false) →
    collectPorts parts acc = .error .valueError := by
  induction parts with
  | nil =>
    intro acc h
    simp at h
  | cons part rest ih =>
    intro acc h
    by_cases hhd : tokenOk part = true
    · obtain ⟨t, ht, hbad⟩ := h
      have htr : t ∈ rest := by
        rcases List.mem_cons.mp ht with rfl | h'
        · rw [hhd] at hbad
          cases hbad
        · exact h'
      simp only [tokenOk] at hhd
      by_cases hc : (pyStrip part).toList.contains '-' = true
      · rw [if_pos hc, Bool.and_eq_true] at hhd
        obtain ⟨a, ha⟩ := Option.isSome_iff_exists.mp hhd.1
        obtain ⟨b, hb⟩ := Option.isSome_iff_exists.mp hhd.2
        simp only [collectPorts]
        rw [if_pos hc, ha, hb]
        dsimp only
        exact ih _ ⟨t, htr, hbad⟩
      · rw [if_neg hc] at hhd
        obtain ⟨v, hv⟩ := Option.isSome_iff_exists.mp hhd
        simp only [collectPorts]
        rw [if_neg hc, hv]
        dsimp only
        exact ih _ ⟨t, htr, hbad⟩
    · have hbadHd : tokenOk part = false := by
        revert hhd
        cases tokenOk part <;> simp
      simp only [tokenOk] at hbadHd
      by_cases hc : (pyStrip part).toList.contains '-' = true
      · rw [if_pos hc] at hbadHd
        simp only [collectPorts]
        rw [if_pos hc]
        rcases h1 : pyInt (pySplitFirst '-' (pyStrip part)).1 with _ | a <;>
          rcases h2 : pyInt (pySplitFirst '-' (pyStrip part)).2 with _ | b <;>
          (try dsimp only) <;>
          first
            | rfl
            | (exfalso; rw [h1, h2] at hbadHd; simp at hbadHd)
      · rw [if_neg hc] at hbadHd
        simp only [collectPorts]
        rw [if_neg hc]
        rcases h1 : pyInt (pyStrip part) with _ | v <;> (try dsimp only) <;>
          first
            | rfl
            | (exfalso; rw [h1] at hbadHd; simp at hbadHd)

/-- C9: a malformed integer in a port specification makes both parsers
raise `ValueError` (the spec's `ConfigError`) before any probing starts —
the `port_scan` pipeline yields the error and never reaches `run_scan`, so
no partial target list escapes and no probe is dispatched; likewise a
malformed port integer on a non-skipped target-file line makes
`read_targets_file` raise. -/
theorem C9_fail_fast :
    (∀ s : String, s ≠ "" → (∃ t ∈ pySplit ',' s, tokenOk t = false) →
      parse_ports (some s) = .error .valueError ∧
      bg_parse_ports (some s) = .error .valueError ∧
      ∀ (env : Int → SpEnv) (fault : Int → Option String) (host : String)
        (tm w : Nat) (b : Bool) (orderOf : List Int → List Int),
        port_scan_pipeline (some s) env fault host tm w b orderOf =
          .error .valueError) ∧
    (∀ lines : List String, (∃ l ∈ lines, lineBad l = true) →
      read_targets_file lines = .error .valueError) := by
  constructor
  · intro s hne h
    have hcol := collectPorts_err (pySplit ',' s) [] h
    refine ⟨?_, ?_, ?_⟩
    · unfold parse_ports
      dsimp only
      rw [if_neg hne, hcol]
      rfl
    · unfold bg_parse_ports
      dsimp only
      rw [if_neg hne, hcol]
      rfl
    · intro env fault host tm w b orderOf
      unfold port_scan_pipeline parse_ports
      dsimp only
      rw [if_neg hne, hcol]
      rfl
  · intro lines h
    induction lines with
    | nil => simp at h
    | cons line rest ih =>
      obtain ⟨l, hl, hbad⟩ := h
      rcases List.mem_cons.mp hl with rfl | hrest
      · simp only [lineBad, Bool.and_eq_true, Bool.not_eq_true',
          decide_eq_false_iff_not, Option.isNone_iff_eq_none] at hbad
        obtain ⟨⟨⟨h1, h2⟩, h3⟩, h4⟩ := hbad
        simp only [read_targets_file]
        rw [if_neg h1, if_neg h2, if_pos h3, h4]
      · have herr := ih ⟨l, hrest, hbad⟩
        simp only [read_targets_file]
        by_cases h1 : pyStrip line = ""
        · rw [if_pos h1]
          exact herr
        · rw [if_neg h1]
          by_cases h2 : (pyStrip line).toList.head? = some '#'
          · rw [if_pos h2]
            exact herr
          · rw [if_neg h2]
            by_cases h3 : (pyStrip line).toList.contains ':' = true
            · rw [if_pos h3]
              rcases hp : pyInt (pyStrip (pySplitFirst ':' (pyStrip line)).2) with _ | p <;>
                (try dsimp only) <;>
                first
                  | rfl
                  | (rw [herr]; rfl)
            · rw [if_neg h3]
              rw [herr]
              rfl

/-- Witness for `C9_fail_fast`: the malformed token `4x` aborts port
parsing and the pipeline; the malformed port `9q` aborts target-file
parsing. -/
theorem C9_fail_fast_witness :
    (("22,4x,80" : String) ≠ "") ∧
    (∃ t ∈ pySplit ',' "22,4x,80", tokenOk t = false) ∧
    (∃ l ∈ ["example.com:22", "h:9q"], lineBad l = true) ∧
    parse_ports (some "22,4x,80") = .error .valueError ∧
    port_scan_pipeline (some "22,4x,80") (fun _ => spEnvConnExn)
      (fun _ => none) "h" 500 100 false (fun ps => ps) = .error .valueError ∧
    read_targets_file ["example.com:22", "h:9q"] = .error .valueError :=
  ⟨by decide, by decide, by decide,
    (C9_fail_fast.1 "22,4x,80" (by decide) (by decide)).1,
    (C9_fail_fast.1 "22,4x,80" (by decide) (by decide)).2.2
      (fun _ => spEnvConnExn) (fun _ => none) "h" 500 100 false (fun ps => ps),
    C9_fail_fast.2 ["example.com:22", "h:9q"] (by decide)⟩

end PySec
